import Mathlib

/-!
Verification development for the Elicia_Ai repository: a shallow embedding of
the tool-calling core (tool implementations in `tools/fitness_calc.py`,
`tools/workout_tools.py`, `tools/nutrition_tools.py`, the dispatcher in
`tools/tool_registry.py`, and the per-turn orchestration loop in
`chainlit_app.py`), together with theorems settling the frozen claims about
that code.

Modelling conventions:
* Python numbers (ints and floats) are modelled as `ℚ`.  The arithmetic of the
  calculators is exact at this granularity; the int/float distinction only
  shows up in string formatting of fields no claim depends on (see `fmtNum`).
* Python `round(x, n)` is modelled by `pyRound` (round half to even).
* Python exceptions are modelled by `Except String`; a total Lean function
  models a Python function that cannot raise.
* JSON-compatible Python values are modelled by the `Json` type below; dicts
  are key/value lists in insertion order, as Python dicts preserve order.
-/

/-- JSON-compatible Python value (None / bool / number / str / list / dict). -/
inductive Json where
  | null : Json
  | bool (b : Bool) : Json
  | num (q : ℚ) : Json
  | str (s : String) : Json
  | arr (xs : List Json) : Json
  | obj (kvs : List (String × Json)) : Json

/-- First-match association lookup: models Python `dict.get(key)` (keys of the
dicts we model are unique, so first-match agrees with dict semantics). -/
def lookupStr {α : Type} : List (String × α) → String → Option α
  | [], _ => none
  | (k, v) :: rest, key => if k == key then some v else lookupStr rest key

/-- Field access on a JSON object; `none` when the value is not an object or
the key is absent. -/
def jget : Json → String → Option Json
  | .obj kvs, k => lookupStr kvs k
  | _, _ => none

/-- Field access through an `Except` result (used to state claims about
calculators that can raise). -/
def jgetE : Except String Json → String → Option Json
  | .ok v, k => jget v k
  | .error _, _ => none

/-- Python truthiness of a JSON value (`if v:`). -/
def pyTruthy : Json → Bool
  | .null => false
  | .bool b => b
  | .num q => q != 0
  | .str s => s != ""
  | .arr xs => !xs.isEmpty
  | .obj kvs => !kvs.isEmpty

/-- Round half to even to an integer, as CPython `round` does on the exact
value of its argument. -/
def roundHalfEven (x : ℚ) : ℤ :=
  if x - ⌊x⌋ < 1/2 then ⌊x⌋
  else if x - ⌊x⌋ > 1/2 then ⌊x⌋ + 1
  else if ⌊x⌋ % 2 = 0 then ⌊x⌋ else ⌊x⌋ + 1

/-- Python `round(x, n)` for `n ≥ 0`, on the exact rational value.  (CPython
rounds the binary double; on every value appearing in the claims the two
agree, since the decisive comparisons are nowhere near a representation gap.) -/
def pyRound (x : ℚ) (n : ℕ) : ℚ := (roundHalfEven (x * 10 ^ n) : ℚ) / 10 ^ n

/-- A single-quote character as a string (used to spell Python error texts). -/
def sqc : String := String.singleton (Char.ofNat 39)

/-- Wrap a string in single quotes, as CPython error messages do. -/
def qo (s : String) : String := sqc ++ s ++ sqc

/-- Python `str.lower()` (ASCII scope, which covers every string this program
handles). -/
def strLower (s : String) : String := String.mk (s.data.map Char.toLower)

/-- Python `str.strip()`: drop leading and trailing whitespace. -/
def strTrim (s : String) : String :=
  String.mk (((s.data.dropWhile Char.isWhitespace).reverse.dropWhile
    Char.isWhitespace).reverse)

/-- The key normalisation `food_item.lower().strip()` used by the nutrition
lookups. -/
def pyLowerStrip (s : String) : String := strTrim (strLower s)

/-- One step of Python `str.title()`: the boolean records whether the previous
character was alphabetic. -/
def pyTitleAux : Bool → List Char → List Char
  | _, [] => []
  | prevAlpha, c :: cs =>
    let c2 := if c.isAlpha then (if prevAlpha then c.toLower else c.toUpper) else c
    c2 :: pyTitleAux c.isAlpha cs

/-- Python `str.title()` (ASCII scope). -/
def pyTitle (s : String) : String := String.mk (pyTitleAux false s.data)

/-- List `l₁` starts with `l₂`. -/
def listStarts {α : Type} [BEq α] : List α → List α → Bool
  | _, [] => true
  | [], _ :: _ => false
  | a :: as, b :: bs => a == b && listStarts as bs

/-- String `s` starts with `tag`. -/
def strStartsWith (s tag : String) : Bool := listStarts s.data tag.data

/-- Decimal digit string of an integer. -/
def intStr (n : ℤ) : String := toString n

/-- Smallest `k ≤ fuel` such that `x * 10^k` is an integer, when one exists. -/
def decDigitsAux (x : ℚ) : ℕ → Option ℕ
  | 0 => if x.den = 1 then some 0 else none
  | fuel + 1 => if x.den = 1 then some 0 else (decDigitsAux (x * 10) fuel).map (· + 1)

/-- Zero-pad a digit string on the left to `k` characters. -/
def padZeros (k : ℕ) (s : String) : String :=
  String.mk (List.replicate (k - s.length) (Char.ofNat 48)) ++ s

/-- Decimal rendering of a rational, as Python prints the corresponding number.
Integral values print without a fractional part (Python `int` style); values
with a terminating decimal expansion print exactly.  A rational without a
terminating expansion (which cannot arise from a Python float) falls back to a
fraction rendering.  No claim depends on this formatting; it only feeds string
fields of tool outputs and `Json.dumps`. -/
def fmtNum (x : ℚ) : String :=
  if x.den = 1 then intStr x.num
  else
    match decDigitsAux x 64 with
    | some k =>
      let a := (x * 10 ^ k).num.natAbs
      (if x < 0 then "-" else "") ++ toString (a / 10 ^ k) ++ "." ++
        padZeros k (toString (a % 10 ^ k))
    | none => intStr x.num ++ "/" ++ toString x.den

/-- Python `str()`/`repr()` of a float: like `fmtNum` but integral values keep
a trailing `.0`.  Used for f-string fields built from `round(_, 1)` results. -/
def fmtFloat (x : ℚ) : String :=
  if x.den = 1 then intStr x.num ++ ".0" else fmtNum x

/-- Hex digit character (lowercase), for JSON `\uXXXX` escapes. -/
def hexDigit (n : ℕ) : Char :=
  if n < 10 then Char.ofNat (48 + n) else Char.ofNat (87 + n)

/-- A `\uXXXX` escape for a code unit below `0x10000`. -/
def uEsc (n : ℕ) : String :=
  "\\u" ++ String.mk [hexDigit (n / 4096 % 16), hexDigit (n / 256 % 16),
    hexDigit (n / 16 % 16), hexDigit (n % 16)]

/-- Escape one character as Python `json.dumps` (default `ensure_ascii=True`)
does. -/
def escChar (c : Char) : String :=
  if c = Char.ofNat 34 then "\\\""
  else if c = Char.ofNat 92 then "\\\\"
  else if c = Char.ofNat 10 then "\\n"
  else if c = Char.ofNat 13 then "\\r"
  else if c = Char.ofNat 9 then "\\t"
  else if c = Char.ofNat 8 then "\\b"
  else if c = Char.ofNat 12 then "\\f"
  else if c.toNat < 32 then uEsc c.toNat
  else if c.toNat < 127 then String.singleton c
  else if c.toNat < 65536 then uEsc c.toNat
  else uEsc (55296 + (c.toNat - 65536) / 1024) ++ uEsc (56320 + (c.toNat - 65536) % 1024)

/-- JSON string literal with escapes. -/
def jsonQuote (s : String) : String :=
  "\"" ++ String.join (s.data.map escChar) ++ "\""

mutual
/-- Python `json.dumps` with its default separators.  (The one modelling gap:
`Json.num` does not record Python's int/float distinction, so an int-valued
float prints without its `.0`; no claim inspects serialized numbers.) -/
def Json.dumps : Json → String
  | .null => "null"
  | .bool true => "true"
  | .bool false => "false"
  | .num q => fmtNum q
  | .str s => jsonQuote s
  | .arr xs => "[" ++ dumpsArr xs ++ "]"
  | .obj kvs => "\x7b" ++ dumpsObjPairs kvs ++ "\x7d"

/-- Comma-separated rendering of a JSON array body. -/
def dumpsArr : List Json → String
  | [] => ""
  | [x] => Json.dumps x
  | x :: y :: r => Json.dumps x ++ ", " ++ dumpsArr (y :: r)

/-- Comma-separated rendering of a JSON object body. -/
def dumpsObjPairs : List (String × Json) → String
  | [] => ""
  | [(k, v)] => jsonQuote k ++ ": " ++ Json.dumps v
  | (k, v) :: y :: r => jsonQuote k ++ ": " ++ Json.dumps v ++ ", " ++ dumpsObjPairs (y :: r)
end

/-! ## `tools/fitness_calc.py` -/

/-- `calculate_bmi` (fitness_calc.py).  The guard models the
`ZeroDivisionError` Python raises when `height_cm` is 0; otherwise the body is
the source formula and category chain verbatim (the redundant lower bounds of
the `elif` conditions are kept). -/
def calculate_bmi (weight_kg height_cm : ℚ) : Except String Json :=
  let height_m := height_cm / 100
  if height_m ^ 2 = 0 then .error "ZeroDivisionError: float division by zero"
  else
    let bmi := weight_kg / height_m ^ 2
    let cat :=
      if bmi < 18.5 then
        ("Underweight", "Below healthy weight range",
         "Consider consulting a nutritionist to develop a healthy weight gain plan with nutrient-dense foods.")
      else if 18.5 ≤ bmi ∧ bmi < 25 then
        ("Normal weight", "Healthy weight range",
         "Maintain your current weight through balanced nutrition and regular physical activity.")
      else if 25 ≤ bmi ∧ bmi < 30 then
        ("Overweight", "Above healthy weight range",
         "Consider a balanced diet and regular exercise. Aim for 150+ minutes of moderate activity per week.")
      else
        ("Obese", "Significantly above healthy weight range",
         "Consult with healthcare professionals for a comprehensive weight management plan.")
    .ok (Json.obj [
      ("bmi", Json.num (pyRound bmi 1)),
      ("category", Json.str cat.1),
      ("health_status", Json.str cat.2.1),
      ("recommendation", Json.str cat.2.2),
      ("weight_kg", Json.num weight_kg),
      ("height_cm", Json.num height_cm)])

/-- The `activity_multipliers` dict of `calculate_tdee`. -/
def activity_multipliers (s : String) : Option ℚ :=
  if s == "sedentary" then some 1.2
  else if s == "light" then some 1.375
  else if s == "moderate" then some 1.55
  else if s == "active" then some 1.725
  else if s == "very_active" then some 1.9
  else none

/-- `calculate_tdee` (fitness_calc.py): Mifflin-St Jeor BMR scaled by the
activity multiplier (`dict.get` default 1.2). -/
def calculate_tdee (weight_kg height_cm age : ℚ) (gender activity_level : String) : Json :=
  let bmr :=
    if strLower gender == "male" then (10 * weight_kg) + (6.25 * height_cm) - (5 * age) + 5
    else (10 * weight_kg) + (6.25 * height_cm) - (5 * age) - 161
  let multiplier := (activity_multipliers (strLower activity_level)).getD 1.2
  let tdee := bmr * multiplier
  Json.obj [
    ("bmr", Json.num (pyRound bmr 0)),
    ("tdee", Json.num (pyRound tdee 0)),
    ("maintenance_calories", Json.num (pyRound tdee 0)),
    ("weight_loss", Json.obj [
      ("mild", Json.num (pyRound (tdee - 250) 0)),
      ("moderate", Json.num (pyRound (tdee - 500) 0)),
      ("aggressive", Json.num (pyRound (tdee - 750) 0))]),
    ("weight_gain", Json.obj [
      ("lean", Json.num (pyRound (tdee + 200) 0)),
      ("moderate", Json.num (pyRound (tdee + 350) 0)),
      ("bulk", Json.num (pyRound (tdee + 500) 0))]),
    ("activity_level", Json.str activity_level)]

/-- `calculate_macros` (fitness_calc.py).  The guard models the
`ZeroDivisionError` of the percentage computations when `calories` is 0.  The
goal-dependent shares are the source's `protein_ratio` / `carb_ratio` /
`fat_ratio` / `protein_per_kg`. -/
def calculate_macros (calories : ℚ) (goal : String) (weight_kg : ℚ) : Except String Json :=
  let shares :=
    if goal == "muscle_gain" then ((0.30 : ℚ), (0.45 : ℚ), (0.25 : ℚ), (2.2 : ℚ))
    else if goal == "fat_loss" then (0.40, 0.30, 0.30, 2.4)
    else (0.30, 0.40, 0.30, 1.8)
  let protein_share := shares.1
  let carb_share := shares.2.1
  let fat_share := shares.2.2.1
  let protein_per_kg := shares.2.2.2
  let protein_g0 := weight_kg * protein_per_kg
  let protein_calories0 := protein_g0 * 4
  let protein_g :=
    if protein_calories0 > calories * (protein_share + 0.1) then (calories * protein_share) / 4
    else protein_g0
  let protein_calories := protein_g * 4
  let remaining_calories := calories - protein_calories
  let carb_calories := remaining_calories * (carb_share / (carb_share + fat_share))
  let fat_calories := remaining_calories - carb_calories
  let carbs_g := carb_calories / 4
  let fat_g := fat_calories / 9
  if calories = 0 then .error "ZeroDivisionError: float division by zero"
  else .ok (Json.obj [
    ("calories", Json.num (pyRound calories 0)),
    ("protein", Json.obj [
      ("grams", Json.num (pyRound protein_g 1)),
      ("calories", Json.num (pyRound protein_calories 0)),
      ("percentage", Json.num (pyRound ((protein_calories / calories) * 100) 1))]),
    ("carbs", Json.obj [
      ("grams", Json.num (pyRound carbs_g 1)),
      ("calories", Json.num (pyRound carb_calories 0)),
      ("percentage", Json.num (pyRound ((carb_calories / calories) * 100) 1))]),
    ("fat", Json.obj [
      ("grams", Json.num (pyRound fat_g 1)),
      ("calories", Json.num (pyRound fat_calories 0)),
      ("percentage", Json.num (pyRound ((fat_calories / calories) * 100) 1))]),
    ("goal", Json.str goal)])

/-- One training zone of `calculate_one_rep_max`: the `weight_range` f-string
is `round(one_rm*lo,1)`-`round(one_rm*hi,1)` rendered as Python prints those
floats. -/
def oneRmZone (one_rm lo hi : ℚ) (reps purpose : String) : Json :=
  Json.obj [
    ("percentage", Json.str (fmtNum (lo * 100) ++ "-" ++ fmtNum (hi * 100) ++ "%")),
    ("weight_range", Json.str (fmtFloat (pyRound (one_rm * lo) 1) ++ "-" ++ fmtFloat (pyRound (one_rm * hi) 1))),
    ("reps", Json.str reps),
    ("purpose", Json.str purpose)]

/-- `calculate_one_rep_max` (fitness_calc.py): `reps == 1` is special-cased to
the lifted weight, otherwise the Epley formula `weight * (1 + reps / 30)`; the
result field is `round(one_rm, 1)`. -/
def calculate_one_rep_max (weight reps : ℚ) : Json :=
  let one_rm := if reps = 1 then weight else weight * (1 + reps / 30)
  Json.obj [
    ("one_rep_max", Json.num (pyRound one_rm 1)),
    ("training_zones", Json.obj [
      ("strength", oneRmZone one_rm 0.80 0.95 "1-5" "Maximum strength development"),
      ("hypertrophy", oneRmZone one_rm 0.65 0.85 "6-12" "Muscle growth"),
      ("endurance", oneRmZone one_rm 0.50 0.70 "12-20+" "Muscular endurance")])]

/-- Body-fat category chain of `calculate_body_fat_navy`. -/
def navyCategory (gender_is_male : Bool) (body_fat : ℚ) : String :=
  if gender_is_male then
    if body_fat < 6 then "Essential fat"
    else if 6 ≤ body_fat ∧ body_fat < 14 then "Athletes"
    else if 14 ≤ body_fat ∧ body_fat < 18 then "Fitness"
    else if 18 ≤ body_fat ∧ body_fat < 25 then "Average"
    else "Obese"
  else
    if body_fat < 14 then "Essential fat"
    else if 14 ≤ body_fat ∧ body_fat < 21 then "Athletes"
    else if 21 ≤ body_fat ∧ body_fat < 25 then "Fitness"
    else if 25 ≤ body_fat ∧ body_fat < 32 then "Average"
    else "Obese"

/-- Extract a Python number from a JSON value.  Booleans count as numbers
because Python `bool` is an `int` subtype; any other shape models the
`TypeError` Python raises when the value meets arithmetic.  (The precise
CPython message varies with the operation; downstream only the fact of an
exception matters.) -/
def asNum : Json → Except String ℚ
  | .num q => .ok q
  | .bool b => .ok (if b then 1 else 0)
  | _ => .error "TypeError: unsupported operand type for a numeric operation"

/-- `calculate_body_fat_navy` (fitness_calc.py).  The measurement arguments
stay raw `Json` because the Python body never touches them on the
female-without-hip path (it returns the `error` sentinel dict first); `hip_cm`
defaults to `None` (`Json.null`).  Denominator guards model the
`ZeroDivisionError` of the formula at degenerate measurements. -/
def calculate_body_fat_navy (gender : String) (waist_cm neck_cm height_cm hip_cm : Json) :
    Except String Json :=
  if strLower gender == "male" then do
    let w ← asNum waist_cm
    let n ← asNum neck_cm
    let h ← asNum height_cm
    let denom := 1.0324 - 0.19077 * (w - n) / 2.54 + 0.15456 * h / 2.54
    if denom = 0 then .error "ZeroDivisionError: float division by zero"
    else
      let body_fat := 495 / denom - 450
      .ok (Json.obj [
        ("body_fat_percentage", Json.num (pyRound body_fat 1)),
        ("category", Json.str (navyCategory true body_fat)),
        ("gender", Json.str gender)])
  else
    match hip_cm with
    | Json.null => .ok (Json.obj [("error", Json.str "Hip measurement required for females")])
    | hv => do
      let w ← asNum waist_cm
      let hip ← asNum hv
      let n ← asNum neck_cm
      let h ← asNum height_cm
      let denom := 1.29579 - 0.35004 * (w + hip - n) / 2.54 + 0.22100 * h / 2.54
      if denom = 0 then .error "ZeroDivisionError: float division by zero"
      else
        let body_fat := 495 / denom - 450
        .ok (Json.obj [
          ("body_fat_percentage", Json.num (pyRound body_fat 1)),
          ("category", Json.str (navyCategory false body_fat)),
          ("gender", Json.str gender)])

/-- One heart-rate zone of `calculate_heart_rate_zones`; the `heart_rate`
f-string uses `round(_)` (no ndigits), which yields integers. -/
def hrZone (max_hr lo hi : ℚ) (pct purpose intensity : String) : Json :=
  Json.obj [
    ("percentage", Json.str pct),
    ("heart_rate", Json.str (fmtNum (pyRound (max_hr * lo) 0) ++ "-" ++ fmtNum (pyRound (max_hr * hi) 0) ++ " bpm")),
    ("purpose", Json.str purpose),
    ("intensity", Json.str intensity)]

/-- `calculate_heart_rate_zones` (fitness_calc.py): `max_hr = 220 - age` and
five Karvonen-style percentage zones. -/
def calculate_heart_rate_zones (age : ℚ) : Json :=
  let max_hr := 220 - age
  Json.obj [
    ("max_heart_rate", Json.num max_hr),
    ("resting_recommendation", Json.str "60-100 bpm for adults"),
    ("training_zones", Json.obj [
      ("zone_1_recovery", hrZone max_hr 0.50 0.60 "50-60%" "Warm-up, cool-down, recovery" "Very light"),
      ("zone_2_fat_burn", hrZone max_hr 0.60 0.70 "60-70%" "Fat burning, base fitness" "Light"),
      ("zone_3_aerobic", hrZone max_hr 0.70 0.80 "70-80%" "Aerobic fitness, endurance" "Moderate"),
      ("zone_4_anaerobic", hrZone max_hr 0.80 0.90 "80-90%" "Performance, speed, power" "Hard"),
      ("zone_5_max", Json.obj [
        ("percentage", Json.str "90-100%"),
        ("heart_rate", Json.str (fmtNum (pyRound (max_hr * 0.90) 0) ++ "-" ++ fmtNum max_hr ++ " bpm")),
        ("purpose", Json.str "Maximum effort, sprints"),
        ("intensity", Json.str "Maximum")])])]

/-- `calculate_hydration` (fitness_calc.py): 33 ml per kg scaled by activity. -/
def calculate_hydration (weight_kg : ℚ) (activity_level : String) : Json :=
  let base_ml := weight_kg * 33
  let total_ml :=
    if strLower activity_level == "sedentary" then base_ml
    else if strLower activity_level == "moderate" then base_ml * 1.2
    else base_ml * 1.5
  let liters := total_ml / 1000
  let oz := total_ml / 29.5735
  let cups := oz / 8
  Json.obj [
    ("daily_intake", Json.obj [
      ("liters", Json.num (pyRound liters 1)),
      ("ml", Json.num (pyRound total_ml 0)),
      ("oz", Json.num (pyRound oz 0)),
      ("cups", Json.num (pyRound cups 1))]),
    ("tips", Json.arr [
      Json.str "Drink a glass of water upon waking",
      Json.str "Have water before each meal",
      Json.str "Carry a reusable water bottle",
      Json.str "Increase intake during exercise and hot weather",
      Json.str "Monitor urine color (pale yellow is ideal)"])]

/-! ## `tools/workout_tools.py` -/

/-- One exercise entry of the `exercises` table in
`get_exercise_recommendations`. -/
structure ExRec where
  name : String
  equipment : String
  sets : String
  reps : String

/-- JSON rendering of an exercise entry (the dict shape of the source table). -/
def exJson (e : ExRec) : Json :=
  Json.obj [("name", Json.str e.name), ("equipment", Json.str e.equipment),
    ("sets", Json.str e.sets), ("reps", Json.str e.reps)]

/-- The `exercises` database of `get_exercise_recommendations`, keyed by muscle
group then experience level. -/
def exercises : List (String × List (String × List ExRec)) := [
  ("chest", [
    ("beginner", [
      ⟨"Push-ups", "bodyweight", "3", "8-12"⟩,
      ⟨"Incline Push-ups", "bodyweight", "3", "10-15"⟩,
      ⟨"Dumbbell Bench Press", "dumbbells", "3", "8-12"⟩,
      ⟨"Dumbbell Flyes", "dumbbells", "3", "10-12"⟩]),
    ("intermediate", [
      ⟨"Barbell Bench Press", "barbell", "4", "8-10"⟩,
      ⟨"Incline Dumbbell Press", "dumbbells", "3", "8-12"⟩,
      ⟨"Cable Flyes", "cables", "3", "12-15"⟩,
      ⟨"Dips", "bodyweight", "3", "8-12"⟩]),
    ("advanced", [
      ⟨"Barbell Bench Press", "barbell", "5", "5-8"⟩,
      ⟨"Incline Barbell Press", "barbell", "4", "8-10"⟩,
      ⟨"Weighted Dips", "bodyweight", "4", "6-10"⟩,
      ⟨"Cable Crossovers", "cables", "3", "12-15"⟩])]),
  ("back", [
    ("beginner", [
      ⟨"Dumbbell Rows", "dumbbells", "3", "10-12"⟩,
      ⟨"Lat Pulldowns", "cables", "3", "10-12"⟩,
      ⟨"Seated Cable Rows", "cables", "3", "10-12"⟩,
      ⟨"Back Extensions", "bodyweight", "3", "12-15"⟩]),
    ("intermediate", [
      ⟨"Pull-ups", "bodyweight", "4", "6-10"⟩,
      ⟨"Barbell Rows", "barbell", "4", "8-10"⟩,
      ⟨"T-Bar Rows", "barbell", "3", "10-12"⟩,
      ⟨"Face Pulls", "cables", "3", "15-20"⟩]),
    ("advanced", [
      ⟨"Weighted Pull-ups", "bodyweight", "4", "6-8"⟩,
      ⟨"Deadlifts", "barbell", "4", "5-8"⟩,
      ⟨"Pendlay Rows", "barbell", "4", "6-8"⟩,
      ⟨"Chest Supported Rows", "dumbbells", "3", "10-12"⟩])]),
  ("legs", [
    ("beginner", [
      ⟨"Bodyweight Squats", "bodyweight", "3", "12-15"⟩,
      ⟨"Lunges", "bodyweight", "3", "10-12 each leg"⟩,
      ⟨"Leg Press", "machine", "3", "12-15"⟩,
      ⟨"Leg Curls", "machine", "3", "12-15"⟩]),
    ("intermediate", [
      ⟨"Barbell Squats", "barbell", "4", "8-10"⟩,
      ⟨"Romanian Deadlifts", "barbell", "3", "10-12"⟩,
      ⟨"Bulgarian Split Squats", "dumbbells", "3", "10-12 each"⟩,
      ⟨"Leg Extensions", "machine", "3", "12-15"⟩]),
    ("advanced", [
      ⟨"Back Squats", "barbell", "5", "5-8"⟩,
      ⟨"Front Squats", "barbell", "4", "6-8"⟩,
      ⟨"Deadlifts", "barbell", "4", "5-8"⟩,
      ⟨"Walking Lunges", "dumbbells", "4", "12 each leg"⟩])]),
  ("shoulders", [
    ("beginner", [
      ⟨"Dumbbell Shoulder Press", "dumbbells", "3", "10-12"⟩,
      ⟨"Lateral Raises", "dumbbells", "3", "12-15"⟩,
      ⟨"Front Raises", "dumbbells", "3", "12-15"⟩,
      ⟨"Face Pulls", "cables", "3", "15-20"⟩]),
    ("intermediate", [
      ⟨"Overhead Press", "barbell", "4", "8-10"⟩,
      ⟨"Arnold Press", "dumbbells", "3", "10-12"⟩,
      ⟨"Lateral Raises", "dumbbells", "4", "12-15"⟩,
      ⟨"Reverse Flyes", "dumbbells", "3", "12-15"⟩]),
    ("advanced", [
      ⟨"Push Press", "barbell", "4", "6-8"⟩,
      ⟨"Seated Dumbbell Press", "dumbbells", "4", "8-10"⟩,
      ⟨"Cable Lateral Raises", "cables", "4", "15-20"⟩,
      ⟨"Upright Rows", "barbell", "3", "10-12"⟩])]),
  ("arms", [
    ("beginner", [
      ⟨"Dumbbell Bicep Curls", "dumbbells", "3", "10-12"⟩,
      ⟨"Tricep Dips", "bodyweight", "3", "8-12"⟩,
      ⟨"Hammer Curls", "dumbbells", "3", "10-12"⟩,
      ⟨"Tricep Extensions", "dumbbells", "3", "10-12"⟩]),
    ("intermediate", [
      ⟨"Barbell Curls", "barbell", "4", "8-10"⟩,
      ⟨"Close-Grip Bench Press", "barbell", "4", "8-10"⟩,
      ⟨"Preacher Curls", "dumbbells", "3", "10-12"⟩,
      ⟨"Skull Crushers", "barbell", "3", "10-12"⟩]),
    ("advanced", [
      ⟨"Weighted Chin-ups", "bodyweight", "4", "6-8"⟩,
      ⟨"Close-Grip Bench Press", "barbell", "5", "6-8"⟩,
      ⟨"Cable Curls", "cables", "4", "12-15"⟩,
      ⟨"Overhead Tricep Extension", "dumbbells", "4", "10-12"⟩])]),
  ("core", [
    ("beginner", [
      ⟨"Plank", "bodyweight", "3", "30-60 seconds"⟩,
      ⟨"Crunches", "bodyweight", "3", "15-20"⟩,
      ⟨"Bicycle Crunches", "bodyweight", "3", "15-20"⟩,
      ⟨"Dead Bug", "bodyweight", "3", "10-12 each side"⟩]),
    ("intermediate", [
      ⟨"Hanging Knee Raises", "bodyweight", "3", "12-15"⟩,
      ⟨"Russian Twists", "bodyweight", "3", "20-30"⟩,
      ⟨"Mountain Climbers", "bodyweight", "3", "20-30"⟩,
      ⟨"Cable Crunches", "cables", "3", "15-20"⟩]),
    ("advanced", [
      ⟨"Hanging Leg Raises", "bodyweight", "4", "12-15"⟩,
      ⟨"Ab Wheel Rollouts", "ab_wheel", "4", "10-12"⟩,
      ⟨"Dragon Flags", "bodyweight", "3", "6-10"⟩,
      ⟨"Pallof Press", "cables", "3", "12-15 each side"⟩])])]

/-- `generate_workout` (workout_tools.py): split by day count, sets/reps and
rest by goal.  The `main_workout` f-string formats `duration_minutes - 15`. -/
def generate_workout (goal level : String) (days_per_week : ℚ) (equipment : List String)
    (duration_minutes : ℚ) : Json :=
  let sr :=
    if days_per_week = 3 then
      ("Full Body (3x/week)", [Json.str "Full Body A", Json.str "Full Body B", Json.str "Full Body C"])
    else if days_per_week = 4 then
      ("Upper/Lower Split", [Json.str "Upper Body A", Json.str "Lower Body A", Json.str "Upper Body B", Json.str "Lower Body B"])
    else if days_per_week = 5 then
      ("Push/Pull/Legs", [Json.str "Push Day", Json.str "Pull Day", Json.str "Legs", Json.str "Push Day", Json.str "Pull Day"])
    else
      ("Push/Pull/Legs (2x/week)", [Json.str "Push", Json.str "Pull", Json.str "Legs", Json.str "Push", Json.str "Pull", Json.str "Legs"])
  let gr :=
    if goal == "strength" then ("4-5 sets of 3-6 reps", "3-5 minutes")
    else if goal == "muscle_gain" then ("3-4 sets of 8-12 reps", "60-90 seconds")
    else if goal == "endurance" then ("2-3 sets of 15-20 reps", "30-45 seconds")
    else if goal == "fat_loss" then ("3 sets of 12-15 reps", "45-60 seconds")
    else ("3 sets of 10-12 reps", "60 seconds")
  Json.obj [
    ("split", Json.str sr.1),
    ("days_per_week", Json.num days_per_week),
    ("routine", Json.arr sr.2),
    ("goal", Json.str goal),
    ("level", Json.str level),
    ("sets_reps_guideline", Json.str gr.1),
    ("rest_periods", Json.str gr.2),
    ("duration_minutes", Json.num duration_minutes),
    ("equipment", Json.arr (equipment.map Json.str)),
    ("workout_structure", Json.obj [
      ("warm_up", Json.str "5-10 minutes of light cardio and dynamic stretching"),
      ("main_workout", Json.str (fmtNum (duration_minutes - 15) ++ " minutes")),
      ("cool_down", Json.str "5 minutes of stretching")]),
    ("tips", Json.arr [
      Json.str "Progressive overload: Gradually increase weight or reps each week",
      Json.str "Maintain proper form over heavy weight",
      Json.str "Stay hydrated throughout your workout",
      Json.str ("Rest " ++ gr.2 ++ " between sets"),
      Json.str "Track your progress in a workout journal"])]

/-- `get_exercise_recommendations` (workout_tools.py): table lookup with
defaults `{}` / `[]`, then the equipment filter (`bodyweight` always allowed)
when `equipment` is non-empty and not `["all"]`. -/
def get_exercise_recommendations (muscle_group : String) (equipment : List String)
    (level : String) : Json :=
  let muscle_exercises :=
    match lookupStr exercises (strLower muscle_group) with
    | some levels => (lookupStr levels level).getD []
    | none => []
  let filtered :=
    if !equipment.isEmpty && equipment != ["all"] then
      let available_equipment := equipment.map strLower ++ ["bodyweight"]
      muscle_exercises.filter (fun ex => available_equipment.contains (strLower ex.equipment))
    else muscle_exercises
  Json.obj [
    ("muscle_group", Json.str muscle_group),
    ("level", Json.str level),
    ("exercises", Json.arr (filtered.map exJson)),
    ("equipment_available", Json.arr (equipment.map Json.str))]

/-- `calculate_progressive_overload` (workout_tools.py).  The recommendation
f-strings embed numbers via Python float/int formatting (`fmtFloat`/`fmtNum`;
the int/float distinction of the raw weight echo is not recorded by `ℚ`). -/
def calculate_progressive_overload (current_weight current_reps target_reps : ℚ)
    (progression_type : String) : Json :=
  let nr :=
    if progression_type == "weight" then
      if current_reps ≥ target_reps then
        (current_weight * 1.025,
         "Increase weight to " ++ fmtFloat (pyRound (current_weight * 1.025) 1) ++ " and drop reps to lower range")
      else
        (current_weight,
         "Keep current weight " ++ fmtNum current_weight ++ ", aim for " ++ fmtNum target_reps ++ " reps")
    else if progression_type == "reps" then
      (current_weight, "Keep weight at " ++ fmtNum current_weight ++ ", add 1-2 reps per session")
    else
      (current_weight * 1.025,
       "Increase weight to " ++ fmtFloat (pyRound (current_weight * 1.025) 1) ++ " OR add 1-2 reps")
  Json.obj [
    ("current", Json.obj [
      ("weight", Json.num current_weight),
      ("reps", Json.num current_reps)]),
    ("recommended", Json.obj [
      ("weight", Json.num (pyRound nr.1 1)),
      ("target_reps", Json.num target_reps)]),
    ("progression_strategy", Json.str progression_type),
    ("recommendation", Json.str nr.2),
    ("notes", Json.arr [
      Json.str "Only progress when you can complete all sets with good form",
      Json.str "Small increases are better than large jumps",
      Json.str "Aim to progress every 1-2 weeks",
      Json.str "Deload every 4-6 weeks to prevent overtraining"])]

/-! ## `tools/nutrition_tools.py` -/

/-- Extract a Python string; any other shape models the `AttributeError` or
`TypeError` raised when a non-string meets a string operation. -/
def asStr : Json → Except String String
  | .str s => .ok s
  | _ => .error "TypeError: expected a string value"

/-- Python `d.get(k, default)`: raises on a non-dict receiver. -/
def pyGet (v : Json) (k : String) (d : Json) : Except String Json :=
  match v with
  | .obj kvs => .ok ((lookupStr kvs k).getD d)
  | _ => .error "AttributeError: object has no attribute get"

/-- Python `d[k]`: `KeyError` when absent, error on a non-dict receiver. -/
def pyIndex (v : Json) (k : String) : Except String Json :=
  match v with
  | .obj kvs =>
    match lookupStr kvs k with
    | some x => .ok x
    | none => .error ("KeyError: " ++ qo k)
  | _ => .error "TypeError: value is not subscriptable"

/-- The meal-suggestion table of `_get_meal_suggestions`. -/
def meal_suggestion_table : List (String × List String) := [
  ("Breakfast", [
    "Egg whites with oatmeal and berries",
    "Greek yogurt with granola and banana",
    "Whole grain toast with avocado and eggs",
    "Protein smoothie with oats and fruit",
    "Cottage cheese with nuts and honey"]),
  ("Lunch", [
    "Grilled chicken breast with brown rice and vegetables",
    "Salmon with quinoa and asparagus",
    "Turkey wrap with whole wheat tortilla and salad",
    "Lean beef stir-fry with mixed vegetables",
    "Tuna salad with whole grain crackers"]),
  ("Dinner", [
    "Baked chicken with sweet potato and broccoli",
    "Lean steak with quinoa and green beans",
    "Grilled fish with wild rice and roasted vegetables",
    "Turkey meatballs with pasta and marinara",
    "Shrimp with brown rice and stir-fried vegetables"]),
  ("Snack", [
    "Protein shake",
    "Apple with almond butter",
    "Greek yogurt with berries",
    "Rice cakes with peanut butter",
    "Protein bar",
    "Mixed nuts and dried fruit"]),
  ("Morning Snack", [
    "Protein shake",
    "Banana with peanut butter",
    "Hard-boiled eggs",
    "Greek yogurt"]),
  ("Afternoon Snack", [
    "Protein bar",
    "Apple with almond butter",
    "Cottage cheese with fruit",
    "Hummus with vegetables"]),
  ("Evening Snack", [
    "Casein protein shake",
    "Cottage cheese",
    "Greek yogurt",
    "Small portion of nuts"])]

/-- The fallback list `suggestions["Snack"]`. -/
def snackSuggestions : List String :=
  (lookupStr meal_suggestion_table "Snack").getD []

/-- `_get_meal_suggestions` (nutrition_tools.py): first three suggestions for
the meal name; the `dietary_preference` argument is accepted and unused, as in
the source. -/
def get_meal_suggestions (meal_name : String) (dietary_preference : String) : List String :=
  ((lookupStr meal_suggestion_table meal_name).getD snackSuggestions).take 3

/-- The `meal_names` dict of `generate_meal_plan` (`dict.get` default is the
3-meal list; a float key equal to an int key hashes the same in Python, which
`ℚ` equality mirrors). -/
def meal_names (meals_per_day : ℚ) : List String :=
  if meals_per_day = 3 then ["Breakfast", "Lunch", "Dinner"]
  else if meals_per_day = 4 then ["Breakfast", "Lunch", "Snack", "Dinner"]
  else if meals_per_day = 5 then ["Breakfast", "Morning Snack", "Lunch", "Afternoon Snack", "Dinner"]
  else if meals_per_day = 6 then ["Breakfast", "Morning Snack", "Lunch", "Afternoon Snack", "Dinner", "Evening Snack"]
  else ["Breakfast", "Lunch", "Dinner"]

/-- `generate_meal_plan` (nutrition_tools.py).  The guard models the
`ZeroDivisionError` of the per-meal divisions when `meals_per_day` is 0. -/
def generate_meal_plan (calories protein_g carbs_g fat_g meals_per_day : ℚ)
    (dietary_preference : String) : Except String Json :=
  if meals_per_day = 0 then .error "ZeroDivisionError: float division by zero"
  else
    let cals_per_meal := calories / meals_per_day
    let protein_per_meal := protein_g / meals_per_day
    let carbs_per_meal := carbs_g / meals_per_day
    let fat_per_meal := fat_g / meals_per_day
    let meals := (meal_names meals_per_day).map (fun meal_name => Json.obj [
      ("meal", Json.str meal_name),
      ("target_calories", Json.num (pyRound cals_per_meal 0)),
      ("target_macros", Json.obj [
        ("protein", Json.num (pyRound protein_per_meal 1)),
        ("carbs", Json.num (pyRound carbs_per_meal 1)),
        ("fat", Json.num (pyRound fat_per_meal 1))]),
      ("suggestions", Json.arr ((get_meal_suggestions meal_name dietary_preference).map Json.str))])
    .ok (Json.obj [
      ("total_daily_targets", Json.obj [
        ("calories", Json.num calories),
        ("protein_g", Json.num protein_g),
        ("carbs_g", Json.num carbs_g),
        ("fat_g", Json.num fat_g)]),
      ("meals_per_day", Json.num meals_per_day),
      ("dietary_preference", Json.str dietary_preference),
      ("meals", Json.arr meals),
      ("hydration_reminder", Json.str "Drink 8-10 glasses of water throughout the day"),
      ("tips", Json.arr [
        Json.str "Prep meals in advance for consistency",
        Json.str "Adjust portion sizes to hit your macros",
        Json.str "Include vegetables with every meal",
        Json.str "Choose whole food sources when possible"])])

/-- Per-100g nutrition facts of one food in the `nutrition_db` table. -/
structure NutInfo where
  calories : ℚ
  protein : ℚ
  carbs : ℚ
  fat : ℚ
deriving DecidableEq

/-- The `nutrition_db` table of `get_nutrition_info` (per 100 g). -/
def nutrition_db : List (String × NutInfo) := [
  ("chicken breast", ⟨165, 31, 0, 3.6⟩),
  ("salmon", ⟨208, 20, 0, 13⟩),
  ("egg", ⟨143, 13, 1, 10⟩),
  ("greek yogurt", ⟨59, 10, 3.6, 0.4⟩),
  ("oatmeal", ⟨389, 17, 66, 7⟩),
  ("brown rice", ⟨370, 7.5, 77, 2.9⟩),
  ("broccoli", ⟨34, 2.8, 7, 0.4⟩),
  ("sweet potato", ⟨86, 1.6, 20, 0.1⟩),
  ("banana", ⟨89, 1.1, 23, 0.3⟩),
  ("almonds", ⟨579, 21, 22, 50⟩),
  ("avocado", ⟨160, 2, 9, 15⟩),
  ("quinoa", ⟨368, 14, 64, 6⟩),
  ("tuna", ⟨130, 28, 0, 1⟩),
  ("beef", ⟨250, 26, 0, 15⟩),
  ("turkey", ⟨135, 30, 0, 0.7⟩),
  ("cottage cheese", ⟨98, 11, 3.4, 4.3⟩),
  ("milk", ⟨42, 3.4, 5, 1⟩),
  ("apple", ⟨52, 0.3, 14, 0.2⟩),
  ("peanut butter", ⟨588, 25, 20, 50⟩),
  ("spinach", ⟨23, 2.9, 3.6, 0.4⟩),
  ("pasta", ⟨371, 13, 75, 1.5⟩),
  ("bread", ⟨265, 9, 49, 3.2⟩),
  ("cheese", ⟨402, 25, 1.3, 33⟩)]

/-- The dict rendering of one `nutrition_db` row. -/
def nutJson (n : NutInfo) : Json :=
  Json.obj [("calories", Json.num n.calories), ("protein", Json.num n.protein),
    ("carbs", Json.num n.carbs), ("fat", Json.num n.fat)]

/-- `get_nutrition_info` (nutrition_tools.py): lookup under
`food_item.lower().strip()`, found/not-found result dicts as in the source. -/
def get_nutrition_info (food_item : String) : Json :=
  match lookupStr nutrition_db (pyLowerStrip food_item) with
  | some nutrition => Json.obj [
      ("food", Json.str (pyTitle food_item)),
      ("serving_size", Json.str "100g"),
      ("nutrition", nutJson nutrition),
      ("found", Json.bool true)]
  | none => Json.obj [
      ("food", Json.str food_item),
      ("found", Json.bool false),
      ("message", Json.str "Food not found in database. Try a more common food item or check spelling.")]

/-- The `for ingredient in ingredients` loop of `calculate_meal_macros`,
accumulating the four totals and the ingredient breakdown.  `grams` is only
coerced to a number inside the found branch, where the source first uses it
numerically (`multiplier = grams / 100`); an unknown food is skipped without
touching `grams`. -/
def mealMacrosLoop : List Json → ℚ → ℚ → ℚ → ℚ → List Json →
    Except String (ℚ × ℚ × ℚ × ℚ × List Json)
  | [], tc, tp, tb, tf, bd => .ok (tc, tp, tb, tf, bd)
  | ingredient :: rest, tc, tp, tb, tf, bd => do
    let foodV ← pyGet ingredient "food" (Json.str "")
    let food_name ← asStr foodV
    let gramsV ← pyGet ingredient "grams" (Json.num 0)
    let food_data := get_nutrition_info food_name
    if pyTruthy ((jget food_data "found").getD Json.null) then do
      let nutrition ← pyIndex food_data "nutrition"
      let grams ← asNum gramsV
      let multiplier := grams / 100
      let cals := (← asNum (← pyIndex nutrition "calories")) * multiplier
      let protein := (← asNum (← pyIndex nutrition "protein")) * multiplier
      let carbs := (← asNum (← pyIndex nutrition "carbs")) * multiplier
      let fat := (← asNum (← pyIndex nutrition "fat")) * multiplier
      let entry := Json.obj [
        ("food", Json.str food_name),
        ("grams", Json.num grams),
        ("calories", Json.num (pyRound cals 1)),
        ("protein", Json.num (pyRound protein 1)),
        ("carbs", Json.num (pyRound carbs 1)),
        ("fat", Json.num (pyRound fat 1))]
      mealMacrosLoop rest (tc + cals) (tp + protein) (tb + carbs) (tf + fat) (bd ++ [entry])
    else
      mealMacrosLoop rest tc tp tb tf bd

/-- `calculate_meal_macros` (nutrition_tools.py): run the ingredient loop from
zero totals, then the result dict with totals rounded to one decimal. -/
def calculate_meal_macros (ingredients : List Json) : Except String Json := do
  let r ← mealMacrosLoop ingredients 0 0 0 0 []
  .ok (Json.obj [
    ("ingredients", Json.arr r.2.2.2.2),
    ("total", Json.obj [
      ("calories", Json.num (pyRound r.1 1)),
      ("protein_g", Json.num (pyRound r.2.1 1)),
      ("carbs_g", Json.num (pyRound r.2.2.1 1)),
      ("fat_g", Json.num (pyRound r.2.2.2.1 1))])])

/-- The `alternatives` table of `get_healthy_alternatives`. -/
def alternatives_table : List (String × (List String × String)) := [
  ("white rice", (["Brown rice", "Quinoa", "Cauliflower rice"],
    "Higher fiber, more nutrients, better for blood sugar")),
  ("white bread", (["Whole grain bread", "Ezekiel bread", "Oat bread"],
    "More fiber, slower digestion, more vitamins")),
  ("pasta", (["Whole wheat pasta", "Lentil pasta", "Zucchini noodles"],
    "Higher protein/fiber, lower calories")),
  ("soda", (["Sparkling water", "Green tea", "Water with lemon"],
    "Zero calories, no sugar, better hydration")),
  ("chips", (["Air-popped popcorn", "Veggie chips", "Rice cakes"],
    "Lower calories, less fat, more filling")),
  ("ice cream", (["Greek yogurt with fruit", "Protein ice cream", "Frozen banana"],
    "Higher protein, lower sugar, fewer calories")),
  ("candy", (["Dark chocolate", "Fruit", "Dates"],
    "Natural sugars, antioxidants, fiber")),
  ("fried chicken", (["Grilled chicken", "Baked chicken", "Air-fried chicken"],
    "Less fat, fewer calories, same protein"))]

/-- `get_healthy_alternatives` (nutrition_tools.py). -/
def get_healthy_alternatives (food_item : String) : Json :=
  match lookupStr alternatives_table (pyLowerStrip food_item) with
  | some alt => Json.obj [
      ("original_food", Json.str food_item),
      ("alternatives", Json.arr (alt.1.map Json.str)),
      ("reason", Json.str alt.2),
      ("found", Json.bool true)]
  | none => Json.obj [
      ("original_food", Json.str food_item),
      ("found", Json.bool false),
      ("message", Json.str "No specific alternatives in database. General tip: Choose whole foods over processed, grilled over fried.")]

/-! ## `tools/tool_registry.py` -/

/-- A decoded `arguments` mapping, as produced by `json.loads` on the model's
argument string. -/
abbrev Args := List (String × Json)

/-- Extract a Python list; iterating anything else models a `TypeError`. -/
def asArr : Json → Except String (List Json)
  | .arr xs => .ok xs
  | _ => .error "TypeError: value is not iterable"

/-- Extract a list of strings (used where the body lowercases each element). -/
def asStrList : Json → Except String (List String)
  | .arr xs => xs.mapM asStr
  | _ => .error "TypeError: value is not iterable"

/-- One parameter of a Python function signature: its name and its default
value, when the signature declares one. -/
structure Param where
  name : String
  default : Option Json

/-- A registered tool implementation: the Python function's `__name__` (used in
`TypeError` texts), its signature, and its body over the bound arguments. -/
structure PyFun where
  name : String
  params : List Param
  run : Args → Except String Json

/-- The value bound to parameter `k` after Python keyword binding (every
parameter is bound once binding succeeds, so the default is unreachable). -/
def argVal (bound : Args) (k : String) : Json := (lookupStr bound k).getD Json.null

/-- Whether `k` names a parameter of the signature. -/
def hasParam (ps : List Param) (k : String) : Bool := ps.any (fun p => p.name == k)

/-- The required (default-less) parameters of `ps` not bound by `args`, in
signature order — the ones CPython reports in its `TypeError`. -/
def missingRequired (ps : List Param) (args : Args) : List String :=
  (ps.filter (fun p => p.default.isNone && (lookupStr args p.name).isNone)).map Param.name

/-- CPython's rendering of a missing-argument name list:
`'a'`, `'a' and 'b'`, or `'a', ..., and 'z'`. -/
def fmtMissing (l : List String) : String :=
  match l with
  | [] => ""
  | [a] => qo a
  | [a, b] => qo a ++ " and " ++ qo b
  | _ => String.intercalate ", " (l.dropLast.map qo) ++ ", and " ++ qo (l.getLastD "")

/-- The bound argument mapping: each parameter takes its keyword argument, or
its default. -/
def bindParams (ps : List Param) (args : Args) : Args :=
  ps.map (fun p => (p.name, ((lookupStr args p.name).getD (p.default.getD Json.null))))

/-- The part of CPython's unexpected-keyword `TypeError` text after the
function name. -/
def unexpectedKwMsg (kw : String) : String :=
  "() got an unexpected keyword argument " ++ qo kw

/-- The part of CPython's missing-argument `TypeError` text after the function
name. -/
def missingArgsMsg (miss : List String) : String :=
  "() missing " ++ toString miss.length ++ " required positional argument" ++
    (if miss.length == 1 then "" else "s") ++ ": " ++ fmtMissing miss

/-- Python `func(**arguments)`: an unexpected keyword or a missing required
argument raises `TypeError` before the body runs (CPython reports the
unexpected keyword first); otherwise the body runs on the bound arguments. -/
def callPy (f : PyFun) (args : Args) : Except String Json :=
  match args.find? (fun kv => !hasParam f.params kv.1) with
  | some kv => .error (f.name ++ unexpectedKwMsg kv.1)
  | none =>
    let miss := missingRequired f.params args
    if miss.isEmpty then f.run (bindParams f.params args)
    else .error (f.name ++ missingArgsMsg miss)

/-- Dispatch body of `calculate_bmi`. -/
def calculate_bmi_run (a : Args) : Except String Json := do
  calculate_bmi (← asNum (argVal a "weight_kg")) (← asNum (argVal a "height_cm"))

/-- Dispatch body of `calculate_tdee`. -/
def calculate_tdee_run (a : Args) : Except String Json := do
  .ok (calculate_tdee (← asNum (argVal a "weight_kg")) (← asNum (argVal a "height_cm"))
    (← asNum (argVal a "age")) (← asStr (argVal a "gender")) (← asStr (argVal a "activity_level")))

/-- Dispatch body of `calculate_macros`. -/
def calculate_macros_run (a : Args) : Except String Json := do
  calculate_macros (← asNum (argVal a "calories")) (← asStr (argVal a "goal"))
    (← asNum (argVal a "weight_kg"))

/-- Dispatch body of `calculate_one_rep_max`. -/
def calculate_one_rep_max_run (a : Args) : Except String Json := do
  .ok (calculate_one_rep_max (← asNum (argVal a "weight")) (← asNum (argVal a "reps")))

/-- Dispatch body of `calculate_body_fat_navy`; the measurements stay raw (see
`calculate_body_fat_navy`). -/
def calculate_body_fat_navy_run (a : Args) : Except String Json := do
  calculate_body_fat_navy (← asStr (argVal a "gender")) (argVal a "waist_cm")
    (argVal a "neck_cm") (argVal a "height_cm") (argVal a "hip_cm")

/-- Dispatch body of `calculate_heart_rate_zones`. -/
def calculate_heart_rate_zones_run (a : Args) : Except String Json := do
  .ok (calculate_heart_rate_zones (← asNum (argVal a "age")))

/-- Dispatch body of `calculate_hydration`. -/
def calculate_hydration_run (a : Args) : Except String Json := do
  .ok (calculate_hydration (← asNum (argVal a "weight_kg")) (← asStr (argVal a "activity_level")))

/-- Dispatch body of `generate_workout`. -/
def generate_workout_run (a : Args) : Except String Json := do
  .ok (generate_workout (← asStr (argVal a "goal")) (← asStr (argVal a "level"))
    (← asNum (argVal a "days_per_week")) (← asStrList (argVal a "equipment"))
    (← asNum (argVal a "duration_minutes")))

/-- Dispatch body of `get_exercise_recommendations`. -/
def get_exercise_recommendations_run (a : Args) : Except String Json := do
  .ok (get_exercise_recommendations (← asStr (argVal a "muscle_group"))
    (← asStrList (argVal a "equipment")) (← asStr (argVal a "level")))

/-- Dispatch body of `calculate_progressive_overload`. -/
def calculate_progressive_overload_run (a : Args) : Except String Json := do
  .ok (calculate_progressive_overload (← asNum (argVal a "current_weight"))
    (← asNum (argVal a "current_reps")) (← asNum (argVal a "target_reps"))
    (← asStr (argVal a "progression_type")))

/-- Dispatch body of `generate_meal_plan`. -/
def generate_meal_plan_run (a : Args) : Except String Json := do
  generate_meal_plan (← asNum (argVal a "calories")) (← asNum (argVal a "protein_g"))
    (← asNum (argVal a "carbs_g")) (← asNum (argVal a "fat_g"))
    (← asNum (argVal a "meals_per_day")) (← asStr (argVal a "dietary_preference"))

/-- Dispatch body of `get_nutrition_info`. -/
def get_nutrition_info_run (a : Args) : Except String Json := do
  .ok (get_nutrition_info (← asStr (argVal a "food_item")))

/-- Dispatch body of `calculate_meal_macros`. -/
def calculate_meal_macros_run (a : Args) : Except String Json := do
  calculate_meal_macros (← asArr (argVal a "ingredients"))

/-- Dispatch body of `get_healthy_alternatives`. -/
def get_healthy_alternatives_run (a : Args) : Except String Json := do
  .ok (get_healthy_alternatives (← asStr (argVal a "food_item")))

/-- `FUNCTION_MAP` (tool_registry.py): the name-to-implementation dict, with
each implementation's signature (parameter names and defaults from the Python
`def` lines). -/
def FUNCTION_MAP : List (String × PyFun) := [
  ("calculate_bmi", ⟨"calculate_bmi",
    [⟨"weight_kg", none⟩, ⟨"height_cm", none⟩], calculate_bmi_run⟩),
  ("calculate_tdee", ⟨"calculate_tdee",
    [⟨"weight_kg", none⟩, ⟨"height_cm", none⟩, ⟨"age", none⟩, ⟨"gender", none⟩,
     ⟨"activity_level", none⟩], calculate_tdee_run⟩),
  ("calculate_macros", ⟨"calculate_macros",
    [⟨"calories", none⟩, ⟨"goal", none⟩, ⟨"weight_kg", none⟩], calculate_macros_run⟩),
  ("calculate_one_rep_max", ⟨"calculate_one_rep_max",
    [⟨"weight", none⟩, ⟨"reps", none⟩], calculate_one_rep_max_run⟩),
  ("calculate_body_fat_navy", ⟨"calculate_body_fat_navy",
    [⟨"gender", none⟩, ⟨"waist_cm", none⟩, ⟨"neck_cm", none⟩, ⟨"height_cm", none⟩,
     ⟨"hip_cm", some Json.null⟩], calculate_body_fat_navy_run⟩),
  ("calculate_heart_rate_zones", ⟨"calculate_heart_rate_zones",
    [⟨"age", none⟩], calculate_heart_rate_zones_run⟩),
  ("calculate_hydration", ⟨"calculate_hydration",
    [⟨"weight_kg", none⟩, ⟨"activity_level", some (Json.str "moderate")⟩],
    calculate_hydration_run⟩),
  ("generate_workout", ⟨"generate_workout",
    [⟨"goal", none⟩, ⟨"level", none⟩, ⟨"days_per_week", none⟩, ⟨"equipment", none⟩,
     ⟨"duration_minutes", some (Json.num 60)⟩], generate_workout_run⟩),
  ("get_exercise_recommendations", ⟨"get_exercise_recommendations",
    [⟨"muscle_group", none⟩, ⟨"equipment", none⟩,
     ⟨"level", some (Json.str "intermediate")⟩], get_exercise_recommendations_run⟩),
  ("calculate_progressive_overload", ⟨"calculate_progressive_overload",
    [⟨"current_weight", none⟩, ⟨"current_reps", none⟩, ⟨"target_reps", none⟩,
     ⟨"progression_type", some (Json.str "weight")⟩], calculate_progressive_overload_run⟩),
  ("generate_meal_plan", ⟨"generate_meal_plan",
    [⟨"calories", none⟩, ⟨"protein_g", none⟩, ⟨"carbs_g", none⟩, ⟨"fat_g", none⟩,
     ⟨"meals_per_day", some (Json.num 3)⟩, ⟨"dietary_preference", some (Json.str "balanced")⟩],
    generate_meal_plan_run⟩),
  ("get_nutrition_info", ⟨"get_nutrition_info",
    [⟨"food_item", none⟩], get_nutrition_info_run⟩),
  ("get_healthy_alternatives", ⟨"get_healthy_alternatives",
    [⟨"food_item", none⟩], get_healthy_alternatives_run⟩)]

/-- The `"required"` arrays declared in the `TOOLS` catalog of
tool_registry.py, per tool name (the projection of the ToolSpec parameter
schemas that the claims about required fields refer to). -/
def TOOLS_required : List (String × List String) := [
  ("calculate_bmi", ["weight_kg", "height_cm"]),
  ("calculate_tdee", ["weight_kg", "height_cm", "age", "gender", "activity_level"]),
  ("calculate_macros", ["calories", "goal", "weight_kg"]),
  ("calculate_one_rep_max", ["weight", "reps"]),
  ("calculate_body_fat_navy", ["gender", "waist_cm", "neck_cm", "height_cm"]),
  ("calculate_heart_rate_zones", ["age"]),
  ("calculate_hydration", ["weight_kg"]),
  ("generate_workout", ["goal", "level", "days_per_week", "equipment"]),
  ("get_exercise_recommendations", ["muscle_group", "equipment", "level"]),
  ("calculate_progressive_overload", ["current_weight", "current_reps", "target_reps"]),
  ("generate_meal_plan", ["calories", "protein_g", "carbs_g", "fat_g"]),
  ("get_nutrition_info", ["food_item"]),
  ("get_healthy_alternatives", ["food_item"])]

/-- A one-key `{"error": ...}` dict. -/
def errObj (msg : String) : Json := Json.obj [("error", Json.str msg)]

/-- `execute_function` (tool_registry.py): look the name up in `FUNCTION_MAP`;
a found implementation runs inside `try/except` with every exception folded
into `{"error": "Function execution failed: ..."}`; an unknown name yields
`{"error": "Function '<name>' not found"}`.  The function is total: no call
raises. -/
def execute_function (function_name : String) (arguments : Args) : Json :=
  match lookupStr FUNCTION_MAP function_name with
  | some func =>
    match callPy func arguments with
    | .ok v => v
    | .error e => errObj ("Function execution failed: " ++ e)
  | none => errObj ("Function " ++ qo function_name ++ " not found")

/-- The message tag of dispatcher-generated execution failures. -/
def execFailedTag : String := "Function execution failed: "

/-- Whether a value has the exact shape `execute_function` gives execution
failures: a one-key `error` dict whose message carries the
`Function execution failed: ` tag. -/
def hasToolExecutionFailedShape (v : Json) : Bool :=
  match v with
  | .obj [(k, .str s)] => k == "error" && strStartsWith s execFailedTag
  | _ => false

/-- Whether a value is a one-key `error` dict — the shape shared by every
failure the dispatcher hands back to the orchestration loop. -/
def isErrorValue (v : Json) : Bool :=
  match v with
  | .obj [(k, _)] => k == "error"
  | _ => false

/-! ## `chainlit_app.py` -/

/-- The `SYSTEM_PROMPT` string of chainlit_app.py. -/
def SYSTEM_PROMPT : String := "You are Elicia, an expert health and fitness AI coach with deep knowledge in:

- Exercise science and workout programming
- Nutrition and meal planning
- Body composition and metabolic calculations
- Strength training and progressive overload
- Cardiovascular fitness and endurance training
- Injury prevention and proper form

You have access to specialized tools for:
- Calculating BMI, TDEE, macros, body fat percentage, heart rate zones
- Generating personalized workout plans
- Creating meal plans and providing nutrition information
- Analyzing exercises and progressive overload strategies

**Important Guidelines:**
1. Always prioritize safety and encourage proper form
2. Recommend consulting healthcare professionals for medical concerns
3. Provide evidence-based advice
4. Be motivating and supportive
5. Ask clarifying questions when needed (age, weight, height, goals, etc.)
6. Use the available tools whenever calculations or structured plans are needed

**Disclaimer:** You are not a replacement for medical professionals. Always advise users to consult with doctors, especially before starting new exercise or diet programs.

Be friendly, encouraging, and knowledgeable. Help users achieve their health and fitness goals!
"

/-- A model-issued tool call (`tool_call.id`, `tool_call.function.name`, and
the `json.loads`-decoded `tool_call.function.arguments`). -/
structure ToolCall where
  id : String
  name : String
  arguments : Args

/-- One entry of the per-session `messages` list.  `assistantCalls` is the
appended `response_message` carrying `tool_calls`; `tool` is the dict appended
per tool call (`tool_call_id`, `role: "tool"`, `name`, serialized `content`);
`assistantText` covers the plain assistant appends (its content is the
`response_message.content` the code appends, which the API may leave `None`). -/
inductive Message where
  | system (content : String)
  | user (content : String)
  | assistantCalls (content : Option String) (tool_calls : List ToolCall)
  | assistantText (content : Option String)
  | tool (tool_call_id : String) (name : String) (content : String)

/-- The `role` field a message carries in the history. -/
def Message.role : Message → String
  | .system _ => "system"
  | .user _ => "user"
  | .assistantCalls _ _ => "assistant"
  | .assistantText _ => "assistant"
  | .tool _ _ _ => "tool"

/-- The correlation id of a `tool` message. -/
def Message.toolCallId : Message → Option String
  | .tool i _ _ => some i
  | _ => none

/-- What the first `chat.completions.create` call of a turn does: raise, or
return a message with optional content and a (possibly empty) tool-call
list (`if tool_calls:` treats `None` and `[]` alike, both are `[]` here). -/
inductive ModelReply where
  | failure (err : String)
  | message (content : Option String) (tool_calls : List ToolCall)

/-- What the second, streamed call does: raise (possibly mid-stream, after
some chunks reached the UI but none reached the history), or complete with the
concatenation of its non-empty chunks. -/
inductive StreamResult where
  | failure (err : String)
  | complete (text : String)

/-- The external model collaborator's behaviour over one turn. -/
structure TurnOracle where
  first : ModelReply
  second : StreamResult

/-- The turn's visible outcome: normal completion, or the single
`❌ Error: ...` message sent by the `except` handler. -/
inductive TurnOutcome where
  | ok
  | errorShown (text : String)

/-- The error message text of the `except` handler (line 164). -/
def errorText (e : String) : String := "❌ Error: " ++ e

/-- The `🔧 Using tool:` banner streamed into the UI message for one tool call
(line 125); it ends up inside `msg.content`, and therefore inside the final
assistant message appended after the streamed reply. -/
def toolBanner (fname : String) : String := "\n\n🔧 Using tool: **" ++ fname ++ "**\n\n"

/-- All banners of a tool round, in call order. -/
def streamBanners (tcs : List ToolCall) : String :=
  String.join (tcs.map (fun tc => toolBanner tc.name))

/-- The tool-result message appended for one tool call (lines 128-136):
`role: "tool"`, the call's id and name, content `json.dumps` of the
dispatcher's result. -/
def toolResultMsg (tc : ToolCall) : Message :=
  Message.tool tc.id tc.name (Json.dumps (execute_function tc.name tc.arguments))

/-- The CPython `TypeError` text of `"" + None`, raised by
`msg.stream_token(None)` when the model returns neither content nor tool
calls. -/
def streamNoneErr : String := "can only concatenate str (not \"NoneType\") to str"

/-- One run of the `main` handler of chainlit_app.py (lines 93-164) for one
user turn.

`st` is the session's stored `messages` list.  `cl.user_session.get` returns
that stored list object itself, so every in-place `append` is immediately
visible in the session store whether or not the final `cl.user_session.set`
(line 161, reached only on success) runs — the returned list is therefore the
stored state after the turn, on the error path included.

The result pairs the stored list after the turn with the visible outcome. -/
def mainTurn (st : List Message) (userText : String) (o : TurnOracle) :
    List Message × TurnOutcome :=
  -- messages.append({"role": "user", "content": message.content}) — before `try`
  let messages := st ++ [Message.user userText]
  match o.first with
  | .failure e =>
    -- the first API call raised: except-handler path
    (messages, .errorShown (errorText e))
  | .message content tcs =>
    match tcs with
    | [] =>
      -- no tool calls: append assistant content, then stream it
      match content with
      | some _ => (messages ++ [Message.assistantText content], .ok)
      | none =>
        -- stream_token(None) raises after the append; except-handler path
        (messages ++ [Message.assistantText none], .errorShown (errorText streamNoneErr))
    | _ :: _ =>
      -- append the assistant message with its tool_calls, then one tool
      -- message per call, in order, with the dispatcher's serialized result
      let m2 := (messages ++ [Message.assistantCalls content tcs]) ++ tcs.map toolResultMsg
      match o.second with
      | .failure e => (m2, .errorShown (errorText e))
      | .complete text =>
        -- final_content = msg.content: the banners already streamed plus the
        -- streamed chunks; appended as the final assistant message
        (m2 ++ [Message.assistantText (some (streamBanners tcs ++ text))], .ok)

/-- The session state `start()` installs (line 48): exactly the system
prompt. -/
def startState : List Message := [Message.system SYSTEM_PROMPT]

/-- A whole session: `start()`, then one `mainTurn` per user turn. -/
def runSession (turns : List (String × TurnOracle)) : List Message :=
  turns.foldl (fun st t => (mainTurn st t.1 t.2).1) startState

/-! ## Characterisations used to state the claims -/

/-- An ingredient dict `{"food": f, "grams": g}` as `calculate_meal_macros`
receives it. -/
def mkIngredient (p : String × ℚ) : Json :=
  Json.obj [("food", Json.str p.1), ("grams", Json.num p.2)]

/-- Whether an ingredient's food name resolves in `nutrition_db` under the
`lower().strip()` normalisation. -/
def ingredientKnown (p : String × ℚ) : Bool :=
  (lookupStr nutrition_db (pyLowerStrip p.1)).isSome

/-- The scaled macros the meal loop accumulates for a known ingredient
(zeros for an unknown one, which the loop never reaches). -/
def ingMacros (p : String × ℚ) : NutInfo :=
  match lookupStr nutrition_db (pyLowerStrip p.1) with
  | some n => ⟨n.calories * (p.2 / 100), n.protein * (p.2 / 100),
      n.carbs * (p.2 / 100), n.fat * (p.2 / 100)⟩
  | none => ⟨0, 0, 0, 0⟩

/-- The breakdown entry the meal loop appends for a known ingredient. -/
def ingEntry (p : String × ℚ) : Json :=
  Json.obj [("food", Json.str p.1), ("grams", Json.num p.2),
    ("calories", Json.num (pyRound (ingMacros p).calories 1)),
    ("protein", Json.num (pyRound (ingMacros p).protein 1)),
    ("carbs", Json.num (pyRound (ingMacros p).carbs 1)),
    ("fat", Json.num (pyRound (ingMacros p).fat 1))]

/-- Componentwise totals of the scaled macros of a list of ingredients. -/
def totMacros : List (String × ℚ) → NutInfo
  | [] => ⟨0, 0, 0, 0⟩
  | p :: ps => ⟨(ingMacros p).calories + (totMacros ps).calories,
      (ingMacros p).protein + (totMacros ps).protein,
      (ingMacros p).carbs + (totMacros ps).carbs,
      (ingMacros p).fat + (totMacros ps).fat⟩

/-- The result `calculate_meal_macros` produces when `ks` is the sublist of
ingredients found in the database: breakdown entries for exactly those, totals
summed over exactly those. -/
def mealMacrosFromKnown (ks : List (String × ℚ)) : Json :=
  Json.obj [
    ("ingredients", Json.arr (ks.map ingEntry)),
    ("total", Json.obj [
      ("calories", Json.num (pyRound (totMacros ks).calories 1)),
      ("protein_g", Json.num (pyRound (totMacros ks).protein 1)),
      ("carbs_g", Json.num (pyRound (totMacros ks).carbs 1)),
      ("fat_g", Json.num (pyRound (totMacros ks).fat 1))])]

/-! ## Helper lemmas -/

theorem roundHalfEven_of_lt {x : ℚ} {f : ℤ} (hf : ⌊x⌋ = f) (h : x - f < 1/2) :
    roundHalfEven x = f := by
  rw [roundHalfEven, hf]
  exact if_pos h

theorem roundHalfEven_of_gt {x : ℚ} {f : ℤ} (hf : ⌊x⌋ = f) (h : (1:ℚ)/2 < x - f) :
    roundHalfEven x = f + 1 := by
  rw [roundHalfEven, hf]
  rw [if_neg (by linarith), if_pos h]

theorem roundHalfEven_tie_even {x : ℚ} {f : ℤ} (hf : ⌊x⌋ = f) (h : x - f = 1/2)
    (hev : f % 2 = 0) : roundHalfEven x = f := by
  rw [roundHalfEven, hf]
  rw [if_neg (by rw [h]; exact lt_irrefl _), if_neg (by rw [h]; exact lt_irrefl _), if_pos hev]

theorem pyRound_of_lt {x : ℚ} {n : ℕ} {f : ℤ} (hf : ⌊x * 10 ^ n⌋ = f)
    (h : x * 10 ^ n - f < 1/2) : pyRound x n = f / 10 ^ n := by
  rw [pyRound, roundHalfEven_of_lt hf h]

theorem pyRound_of_gt {x : ℚ} {n : ℕ} {f : ℤ} (hf : ⌊x * 10 ^ n⌋ = f)
    (h : (1:ℚ)/2 < x * 10 ^ n - f) : pyRound x n = (f + 1) / 10 ^ n := by
  rw [pyRound, roundHalfEven_of_gt hf h]
  push_cast
  ring

theorem pyRound_tie_even {x : ℚ} {n : ℕ} {f : ℤ} (hf : ⌊x * 10 ^ n⌋ = f)
    (h : x * 10 ^ n - f = 1/2) (hev : f % 2 = 0) : pyRound x n = f / 10 ^ n := by
  rw [pyRound, roundHalfEven_tie_even hf h hev]

/-! ## Claims C7 and C8 -/

/-- Claim C7 (confirmed): `calculate_tdee` at weight 80 kg, height 180 cm, age
30, male, moderate activity returns `bmr = 1780` (Mifflin-St Jeor
`10*80 + 6.25*180 - 5*30 + 5`) and `tdee = 2759` (BMR times the moderate
multiplier 1.55, rounded to 0 decimals). -/
theorem c7_tdee_scenario :
    jget (calculate_tdee 80 180 30 "male" "moderate") "bmr" = some (Json.num 1780) ∧
    jget (calculate_tdee 80 180 30 "male" "moderate") "tdee" = some (Json.num 2759) := by
  constructor
  · have hb : jget (calculate_tdee 80 180 30 "male" "moderate") "bmr" =
        some (Json.num (pyRound ((10 * 80) + (6.25 * 180) - (5 * 30) + 5) 0)) := rfl
    rw [hb]
    simp only [Option.some.injEq, Json.num.injEq]
    rw [pyRound_of_lt (f := 1780) (by norm_num) (by norm_num)]
    norm_num
  · have ht : jget (calculate_tdee 80 180 30 "male" "moderate") "tdee" =
        some (Json.num (pyRound (((10 * 80) + (6.25 * 180) - (5 * 30) + 5) * 1.55) 0)) := rfl
    rw [ht]
    simp only [Option.some.injEq, Json.num.injEq]
    rw [pyRound_of_lt (f := 2759) (by norm_num) (by norm_num)]
    norm_num

/-- Claim C8 (confirmed): `calculate_bmi` at 80 kg and 180 cm returns
`bmi = 24.7` (80 / 1.8², rounded to one decimal) with category
`"Normal weight"` (since 18.5 ≤ bmi < 25). -/
theorem c8_bmi_scenario :
    jgetE (calculate_bmi 80 180) "bmi" = some (Json.num 24.7) ∧
    jgetE (calculate_bmi 80 180) "category" = some (Json.str "Normal weight") := by
  have h0 : ¬((180:ℚ)/100) ^ 2 = 0 := by norm_num
  constructor
  · simp only [calculate_bmi]
    rw [if_neg h0, if_neg (by norm_num), if_pos (by norm_num)]
    simp only [jgetE, jget, lookupStr, beq_self_eq_true, if_true, Option.some.injEq,
      Json.num.injEq]
    rw [pyRound_of_gt (f := 246) (by norm_num) (by norm_num)]
    norm_num
  · simp only [calculate_bmi]
    rw [if_neg h0, if_neg (by norm_num), if_pos (by norm_num)]
    simp [jgetE, jget, lookupStr]

/-! ## Claim C9 -/

/-- Claim C9 counterexample: at `weight = 100.25`, `reps = 1` the returned
`one_rep_max` is `round(100.25, 1) = 100.2`, not the weight itself — the
claim's first half fails because the special case still rounds to one
decimal. -/
theorem c9_counterexample :
    jget (calculate_one_rep_max 100.25 1) "one_rep_max" = some (Json.num 100.2) ∧
    jget (calculate_one_rep_max 100.25 1) "one_rep_max" ≠ some (Json.num 100.25) := by
  have hv : jget (calculate_one_rep_max 100.25 1) "one_rep_max" =
      some (Json.num (pyRound 100.25 1)) := rfl
  have hr : pyRound (100.25 : ℚ) 1 = 100.2 := by
    rw [pyRound_tie_even (f := 1002) (by norm_num) (by norm_num) (by norm_num)]
    norm_num
  refine ⟨by rw [hv, hr], ?_⟩
  rw [hv, hr]
  intro hc
  simp only [Option.some.injEq, Json.num.injEq] at hc
  norm_num at hc

/-- Claim C9 as amended: `calculate_one_rep_max` is discontinuous at
`reps = 1`: there it returns `round(weight, 1)` (the special case applies the
rounding to the weight, not the Epley value), while for `reps ≥ 2` it returns
`round(weight * (1 + reps / 30), 1)`; the two formulas genuinely differ at
`reps = 1` (e.g. Epley would give 103.3 at weight 100, the special case
100). -/
theorem c9_amended (w r : ℚ) (h : 2 ≤ r) :
    jget (calculate_one_rep_max w 1) "one_rep_max" = some (Json.num (pyRound w 1)) ∧
    jget (calculate_one_rep_max w r) "one_rep_max" =
      some (Json.num (pyRound (w * (1 + r / 30)) 1)) ∧
    pyRound (100 * (1 + 1 / 30)) 1 ≠ pyRound 100 1 := by
  refine ⟨rfl, ?_, ?_⟩
  · have hne : ¬(r = 1) := by intro he; rw [he] at h; norm_num at h
    simp only [calculate_one_rep_max]
    rw [if_neg hne]
    rfl
  · rw [pyRound_of_lt (f := 1033) (by norm_num) (by norm_num),
      pyRound_of_lt (f := 1000) (by norm_num) (by norm_num)]
    norm_num

/-- Witness for `c9_amended` at weight 100, reps 5. -/
theorem c9_witness :
    (2:ℚ) ≤ 5 ∧
    jget (calculate_one_rep_max 100 5) "one_rep_max" =
      some (Json.num (pyRound (100 * (1 + 5 / 30)) 1)) :=
  ⟨by norm_num, (c9_amended 100 5 (by norm_num)).2.1⟩

/-! ## Claims C4, C5, C2 (dispatcher) -/

theorem lookupStr_eq_none {α : Type} {l : List (String × α)} {key : String}
    (h : key ∉ l.map Prod.fst) : lookupStr l key = none := by
  induction l with
  | nil => rfl
  | cons kv rest ih =>
    obtain ⟨k, v⟩ := kv
    simp only [List.map_cons, List.mem_cons] at h
    push_neg at h
    rw [lookupStr, if_neg (by simp only [beq_iff_eq]; exact fun he => h.1 he.symm)]
    exact ih h.2

/-- Claim C4 (confirmed): dispatching any name outside `FUNCTION_MAP` returns
the `{"error": "Function '<name>' not found"}` value carrying the attempted
name, for every argument mapping.  `execute_function` is a total function, so
no such call raises or propagates an exception. -/
theorem c4_unknown_tool (n : String) (args : Args) (h : n ∉ FUNCTION_MAP.map Prod.fst) :
    execute_function n args = errObj ("Function " ++ qo n ++ " not found") := by
  unfold execute_function
  rw [lookupStr_eq_none h]

/-- Witness for `c4_unknown_tool` at the spec's `unknown_tool` scenario. -/
theorem c4_witness :
    "unknown_tool" ∉ FUNCTION_MAP.map Prod.fst ∧
    execute_function "unknown_tool" [] =
      errObj ("Function " ++ qo "unknown_tool" ++ " not found") :=
  ⟨by decide, c4_unknown_tool "unknown_tool" [] (by decide)⟩

theorem lookupStr_pyfun_name {l : List (String × PyFun)} {n : String} {f : PyFun}
    (hnames : ∀ kv ∈ l, (Prod.snd kv).name = kv.1)
    (h : lookupStr l n = some f) : f.name = n := by
  induction l with
  | nil => exact absurd h (by simp [lookupStr])
  | cons kv rest ih =>
    obtain ⟨k, v⟩ := kv
    rw [lookupStr] at h
    by_cases hk : (k == n) = true
    · rw [if_pos hk] at h
      injection h with hv
      have hn := hnames (k, v) (List.mem_cons_self _ _)
      rw [← hv, hn]
      exact eq_of_beq hk
    · rw [if_neg hk] at h
      exact ih (fun kv2 hkv2 => hnames kv2 (List.mem_cons_of_mem _ hkv2)) h

theorem FUNCTION_MAP_names : ∀ kv ∈ FUNCTION_MAP, (Prod.snd kv).name = kv.1 := by
  intro kv h
  fin_cases h <;> rfl

/-- When some required (default-less) parameter of `f` is unbound, `callPy`
raises the CPython `TypeError` before the body runs: the error text starts
with the function's name. -/
theorem callPy_missing (f : PyFun) (args : Args)
    (hmiss : ∃ p ∈ f.params, p.default = none ∧ lookupStr args p.name = none) :
    ∃ tail : String, callPy f args = .error (f.name ++ tail) := by
  unfold callPy
  cases hfind : args.find? (fun kv => !hasParam f.params kv.1) with
  | some kv => exact ⟨unexpectedKwMsg kv.1, rfl⟩
  | none =>
    have hne : ¬(missingRequired f.params args).isEmpty = true := by
      obtain ⟨p, hp, hd, hlk⟩ := hmiss
      have hmem : p.name ∈ missingRequired f.params args :=
        List.mem_map_of_mem _ (List.mem_filter.mpr ⟨hp, by simp [hd, hlk]⟩)
      simp only [List.isEmpty_iff]
      intro he
      rw [he] at hmem
      exact absurd hmem (List.not_mem_nil _)
    rw [if_neg hne]
    exact ⟨missingArgsMsg (missingRequired f.params args), rfl⟩

/-- Claim C5 as amended: for every registered tool and every argument mapping
missing a parameter the implementation's signature requires (one with no
default), the dispatcher returns the `ToolExecutionFailed` value
`{"error": "Function execution failed: <name>() ..."}` — carrying the tool
name and CPython's human-readable cause — and never raises
(`execute_function` is total).  The amendment: "required field" means
required by the implementation signature; for the one tool whose schema marks
a defaulted parameter as required (`get_exercise_recommendations` and
`level`), omitting that field succeeds instead (see the counterexample). -/
theorem c5_amended (n : String) (f : PyFun) (args : Args)
    (hl : lookupStr FUNCTION_MAP n = some f)
    (hmiss : ∃ p ∈ f.params, p.default = none ∧ lookupStr args p.name = none) :
    ∃ tail : String, execute_function n args =
      errObj ("Function execution failed: " ++ (n ++ tail)) := by
  have hname : f.name = n := lookupStr_pyfun_name FUNCTION_MAP_names hl
  obtain ⟨tail, ht⟩ := callPy_missing f args hmiss
  refine ⟨tail, ?_⟩
  unfold execute_function
  rw [hl]
  show (match callPy f args with
    | Except.ok v => v
    | Except.error e => errObj ("Function execution failed: " ++ e)) =
    errObj ("Function execution failed: " ++ (n ++ tail))
  rw [ht, hname]

/-- Witness for `c5_amended`: `calculate_bmi` with no arguments. -/
theorem c5_witness :
    ∃ tail : String, execute_function "calculate_bmi" [] =
      errObj ("Function execution failed: " ++ ("calculate_bmi" ++ tail)) :=
  c5_amended "calculate_bmi"
    ⟨"calculate_bmi", [⟨"weight_kg", none⟩, ⟨"height_cm", none⟩], calculate_bmi_run⟩ []
    rfl ⟨⟨"weight_kg", none⟩, List.mem_cons_self _ _, rfl, rfl⟩

/-- Claim C5 counterexample: the `TOOLS` schema declares `level` required for
`get_exercise_recommendations`, but the implementation gives it the default
`"intermediate"`; dispatching with `level` absent returns a normal result —
not a `ToolExecutionFailed` value, not even an error-shaped one. -/
theorem c5_counterexample :
    lookupStr TOOLS_required "get_exercise_recommendations" =
      some ["muscle_group", "equipment", "level"] ∧
    lookupStr [("muscle_group", Json.str "chest"), ("equipment", Json.arr [])] "level" = none ∧
    isErrorValue (execute_function "get_exercise_recommendations"
      [("muscle_group", Json.str "chest"), ("equipment", Json.arr [])]) = false ∧
    hasToolExecutionFailedShape (execute_function "get_exercise_recommendations"
      [("muscle_group", Json.str "chest"), ("equipment", Json.arr [])]) = false :=
  ⟨rfl, rfl, rfl, rfl⟩

/-- Claim C2 counterexample: on the female-without-hip input the dispatcher
returns `calculate_body_fat_navy`'s sentinel `{"error": "Hip measurement
required for females"}` verbatim — it is not translated into the
`Function execution failed: `-tagged `ToolExecutionFailed` shape the
Dispatcher gives all other invocation failures. -/
theorem c2_counterexample :
    execute_function "calculate_body_fat_navy"
      [("gender", Json.str "female"), ("waist_cm", Json.num 80),
       ("neck_cm", Json.num 35), ("height_cm", Json.num 170)] =
      errObj "Hip measurement required for females" ∧
    hasToolExecutionFailedShape (errObj "Hip measurement required for females") = false :=
  ⟨rfl, rfl⟩

/-- Claim C2 as amended: the calculator's sentinel passes through the
Dispatcher unchanged (for any values of the measurement arguments) rather
than being translated at the boundary; it happens to share the one-key
`{"error": string}` shape with the `ToolNotFound` and `ToolExecutionFailed`
values the Dispatcher itself produces, so every failure reaching the
Orchestration Loop still has that one shape — but the sentinel lacks the
`Function execution failed: ` tag (and the tool name) that dispatcher-made
failures carry. -/
theorem c2_amended (vw vn vh : Json) :
    execute_function "calculate_body_fat_navy"
      [("gender", Json.str "female"), ("waist_cm", vw), ("neck_cm", vn), ("height_cm", vh)] =
      errObj "Hip measurement required for females" ∧
    isErrorValue (errObj "Hip measurement required for females") = true ∧
    hasToolExecutionFailedShape (errObj "Hip measurement required for females") = false ∧
    isErrorValue (execute_function "nonexistent_tool" []) = true ∧
    isErrorValue (execute_function "calculate_bmi" []) = true :=
  ⟨rfl, rfl, rfl, rfl, rfl⟩

/-! ## Claims C3 and C1 (orchestration loop) -/

/-- Claim C3 (confirmed): a completed tool-requesting turn with `k` tool calls
appends, in order: the assistant message carrying exactly those `tool_calls`,
then exactly `k` tool messages whose `tool_call_id`s are the calls' ids in the
same order (each content the serialized dispatcher result for that call), then
the final assistant message. -/
theorem c3_tool_round_appends (st : List Message) (u : String) (content : Option String)
    (tcs : List ToolCall) (text : String) (h : tcs ≠ []) :
    (mainTurn st u ⟨ModelReply.message content tcs, StreamResult.complete text⟩).1 =
      st ++ [Message.user u, Message.assistantCalls content tcs] ++ tcs.map toolResultMsg
        ++ [Message.assistantText (some (streamBanners tcs ++ text))] ∧
    (tcs.map toolResultMsg).length = tcs.length ∧
    (tcs.map toolResultMsg).map Message.toolCallId = tcs.map (fun tc => some tc.id) := by
  obtain ⟨t, ts, rfl⟩ := List.exists_cons_of_ne_nil h
  refine ⟨?_, by simp, ?_⟩
  · simp [mainTurn, List.append_assoc]
  · simp [List.map_map, Function.comp, toolResultMsg, Message.toolCallId]

/-- Witness for `c3_tool_round_appends`: the spec's two-call scenario
(`calculate_bmi`, then `calculate_tdee`) on a fresh session. -/
theorem c3_witness :
    ([⟨"call_1", "calculate_bmi", [("weight_kg", Json.num 80), ("height_cm", Json.num 180)]⟩,
      ⟨"call_2", "calculate_tdee", [("weight_kg", Json.num 80), ("height_cm", Json.num 180),
        ("age", Json.num 30), ("gender", Json.str "male"),
        ("activity_level", Json.str "moderate")]⟩] : List ToolCall) ≠ [] ∧
    (mainTurn startState "I am 30, 180cm, 80kg. What are my numbers?"
      ⟨ModelReply.message none
        [⟨"call_1", "calculate_bmi", [("weight_kg", Json.num 80), ("height_cm", Json.num 180)]⟩,
         ⟨"call_2", "calculate_tdee", [("weight_kg", Json.num 80), ("height_cm", Json.num 180),
           ("age", Json.num 30), ("gender", Json.str "male"),
           ("activity_level", Json.str "moderate")]⟩],
        StreamResult.complete "Here are your numbers."⟩).1 =
      startState ++ [Message.user "I am 30, 180cm, 80kg. What are my numbers?",
        Message.assistantCalls none
          [⟨"call_1", "calculate_bmi", [("weight_kg", Json.num 80), ("height_cm", Json.num 180)]⟩,
           ⟨"call_2", "calculate_tdee", [("weight_kg", Json.num 80), ("height_cm", Json.num 180),
             ("age", Json.num 30), ("gender", Json.str "male"),
             ("activity_level", Json.str "moderate")]⟩]]
        ++ [⟨"call_1", "calculate_bmi", [("weight_kg", Json.num 80), ("height_cm", Json.num 180)]⟩,
            ⟨"call_2", "calculate_tdee", [("weight_kg", Json.num 80), ("height_cm", Json.num 180),
              ("age", Json.num 30), ("gender", Json.str "male"),
              ("activity_level", Json.str "moderate")]⟩].map toolResultMsg
        ++ [Message.assistantText (some (streamBanners
            [⟨"call_1", "calculate_bmi", [("weight_kg", Json.num 80), ("height_cm", Json.num 180)]⟩,
             ⟨"call_2", "calculate_tdee", [("weight_kg", Json.num 80), ("height_cm", Json.num 180),
               ("age", Json.num 30), ("gender", Json.str "male"),
               ("activity_level", Json.str "moderate")]⟩] ++ "Here are your numbers."))] :=
  ⟨List.cons_ne_nil _ _,
   (c3_tool_round_appends startState "I am 30, 180cm, 80kg. What are my numbers?" none _ _
     (List.cons_ne_nil _ _)).1⟩

/-- Claim C1 counterexample: a turn whose first model call fails does not
leave the stored `messages` list equal to its pre-turn value — the user
message appended before the `try` block persists, because `append` mutates
the very list object the session stores. -/
theorem c1_counterexample :
    (mainTurn startState "hello"
      ⟨ModelReply.failure "boom", StreamResult.complete ""⟩).1 ≠ startState := by
  intro h
  have hl := congrArg List.length h
  simp [mainTurn, startState] at hl

/-- Claim C1 as amended: a turn whose model call fails (initial or post-tool,
mid-stream included) aborts with a single user-visible `❌ Error: ...` message,
but the appends made before the failure stay in the stored list: the user
message for an initial-call failure; additionally the assistant `tool_calls`
message and all `k` tool-result messages for a post-tool (second-call)
failure.  Nothing else from the failed turn is appended. -/
theorem c1_amended (st : List Message) (u e e2 : String) (sec : StreamResult)
    (content : Option String) (tcs : List ToolCall) :
    mainTurn st u ⟨ModelReply.failure e, sec⟩ =
      (st ++ [Message.user u], TurnOutcome.errorShown (errorText e)) ∧
    (tcs ≠ [] →
      mainTurn st u ⟨ModelReply.message content tcs, StreamResult.failure e2⟩ =
        (st ++ [Message.user u, Message.assistantCalls content tcs] ++ tcs.map toolResultMsg,
          TurnOutcome.errorShown (errorText e2))) := by
  refine ⟨rfl, fun h => ?_⟩
  obtain ⟨t, ts, rfl⟩ := List.exists_cons_of_ne_nil h
  simp [mainTurn, List.append_assoc]

/-- Witness for `c1_amended`: a post-tool mid-stream failure after one
`calculate_bmi` call. -/
theorem c1_witness :
    mainTurn startState "bmi please"
      ⟨ModelReply.failure "boom", StreamResult.complete ""⟩ =
      (startState ++ [Message.user "bmi please"],
        TurnOutcome.errorShown (errorText "boom")) ∧
    (([⟨"call_1", "calculate_bmi",
        [("weight_kg", Json.num 80), ("height_cm", Json.num 180)]⟩] : List ToolCall) ≠ [] ∧
      mainTurn startState "bmi please"
        ⟨ModelReply.message none
          [⟨"call_1", "calculate_bmi", [("weight_kg", Json.num 80), ("height_cm", Json.num 180)]⟩],
          StreamResult.failure "connection reset"⟩ =
        (startState ++ [Message.user "bmi please",
            Message.assistantCalls none
              [⟨"call_1", "calculate_bmi", [("weight_kg", Json.num 80), ("height_cm", Json.num 180)]⟩]]
          ++ [⟨"call_1", "calculate_bmi",
              [("weight_kg", Json.num 80), ("height_cm", Json.num 180)]⟩].map toolResultMsg,
          TurnOutcome.errorShown (errorText "connection reset"))) :=
  ⟨(c1_amended startState "bmi please" "boom" "connection reset" (StreamResult.complete "")
      none [⟨"call_1", "calculate_bmi", [("weight_kg", Json.num 80), ("height_cm", Json.num 180)]⟩]).1,
   List.cons_ne_nil _ _,
   (c1_amended startState "bmi please" "boom" "connection reset" (StreamResult.complete "")
      none [⟨"call_1", "calculate_bmi", [("weight_kg", Json.num 80), ("height_cm", Json.num 180)]⟩]).2
     (List.cons_ne_nil _ _)⟩

/-! ## Claim C6 (session invariant) -/

/-- Every turn only appends to the stored list, and none of the appended
messages carries the `system` role. -/
theorem mainTurn_append_only (st : List Message) (u : String) (o : TurnOracle) :
    ∃ d : List Message, (mainTurn st u o).1 = st ++ d ∧
      ∀ m ∈ d, Message.role m ≠ "system" := by
  obtain ⟨first, second⟩ := o
  cases first with
  | failure e =>
    refine ⟨[Message.user u], rfl, ?_⟩
    intro m hm
    simp only [List.mem_singleton] at hm
    subst hm
    simp [Message.role]
  | message content tcs =>
    cases tcs with
    | nil =>
      cases content with
      | some c =>
        refine ⟨[Message.user u, Message.assistantText (some c)], by simp [mainTurn], ?_⟩
        intro m hm
        rcases List.mem_cons.mp hm with rfl | hm2
        · simp [Message.role]
        · rcases List.mem_singleton.mp hm2 with rfl
          simp [Message.role]
      | none =>
        refine ⟨[Message.user u, Message.assistantText none], by simp [mainTurn], ?_⟩
        intro m hm
        rcases List.mem_cons.mp hm with rfl | hm2
        · simp [Message.role]
        · rcases List.mem_singleton.mp hm2 with rfl
          simp [Message.role]
    | cons t ts =>
      have hroles : ∀ m ∈ ([Message.user u, Message.assistantCalls content (t :: ts)]
          ++ (t :: ts).map toolResultMsg), Message.role m ≠ "system" := by
        intro m hm
        rcases List.mem_append.mp hm with hm1 | hm2
        · rcases List.mem_cons.mp hm1 with rfl | hm3
          · simp [Message.role]
          · rcases List.mem_singleton.mp hm3 with rfl
            simp [Message.role]
        · obtain ⟨tc, _, rfl⟩ := List.mem_map.mp hm2
          simp [Message.role, toolResultMsg]
      cases second with
      | failure e2 =>
        refine ⟨[Message.user u, Message.assistantCalls content (t :: ts)]
          ++ (t :: ts).map toolResultMsg, by simp [mainTurn, List.append_assoc], hroles⟩
      | complete text =>
        refine ⟨([Message.user u, Message.assistantCalls content (t :: ts)]
          ++ (t :: ts).map toolResultMsg)
          ++ [Message.assistantText (some (streamBanners (t :: ts) ++ text))],
          by simp [mainTurn, List.append_assoc], ?_⟩
        intro m hm
        rcases List.mem_append.mp hm with hm1 | hm2
        · exact hroles m hm1
        · rcases List.mem_singleton.mp hm2 with rfl
          simp [Message.role]

theorem runSession_invariant (turns : List (String × TurnOracle)) :
    ∀ (st rest : List Message), st = Message.system SYSTEM_PROMPT :: rest →
    (∀ m ∈ rest, Message.role m ≠ "system") →
    ∃ rest2, turns.foldl (fun s t => (mainTurn s t.1 t.2).1) st =
      Message.system SYSTEM_PROMPT :: rest2 ∧ ∀ m ∈ rest2, Message.role m ≠ "system" := by
  induction turns with
  | nil => exact fun st rest h1 h2 => ⟨rest, h1, h2⟩
  | cons t ts ih =>
    intro st rest h1 h2
    rw [List.foldl_cons]
    obtain ⟨d, hd, hdroles⟩ := mainTurn_append_only st t.1 t.2
    refine ih _ (rest ++ d) (by rw [hd, h1]; rfl) ?_
    intro m hm
    rcases List.mem_append.mp hm with hm1 | hm2
    · exact h2 m hm1
    · exact hdroles m hm2

/-- Claim C6 (confirmed): immediately after `start()` the state is exactly one
message, the fixed system prompt; and across every sequence of turns the first
message stays that system prompt, with no other system message ever present —
turns only append non-system messages (`mainTurn_append_only`), so the prompt
is never re-inserted, duplicated, removed, or displaced. -/
theorem c6_system_prompt_invariant (turns : List (String × TurnOracle)) :
    startState = [Message.system SYSTEM_PROMPT] ∧
    ∃ rest, runSession turns = Message.system SYSTEM_PROMPT :: rest ∧
      ∀ m ∈ rest, Message.role m ≠ "system" := by
  refine ⟨rfl, ?_⟩
  exact runSession_invariant turns startState [] rfl (by simp)

/-! ## Claim C10 (meal macros skip unknown foods) -/

theorem except_bind_ok {α β : Type} (a : α) (f : α → Except String β) :
    (Except.ok a : Except String α) >>= f = f a := rfl

theorem get_nutrition_info_found {f : String} {n : NutInfo}
    (h : lookupStr nutrition_db (pyLowerStrip f) = some n) :
    get_nutrition_info f = Json.obj [("food", Json.str (pyTitle f)),
      ("serving_size", Json.str "100g"), ("nutrition", nutJson n),
      ("found", Json.bool true)] := by
  unfold get_nutrition_info
  rw [h]

theorem get_nutrition_info_notfound {f : String}
    (h : lookupStr nutrition_db (pyLowerStrip f) = none) :
    get_nutrition_info f = Json.obj [("food", Json.str f), ("found", Json.bool false),
      ("message", Json.str "Food not found in database. Try a more common food item or check spelling.")] := by
  unfold get_nutrition_info
  rw [h]

/-- The ingredient loop characterised: it succeeds on every well-formed
ingredient list, accumulating totals and breakdown entries for exactly the
ingredients found in the database, in order, skipping the rest. -/
theorem mealMacrosLoop_spec (ps : List (String × ℚ)) :
    ∀ (tc tp tb tf : ℚ) (bd : List Json),
    mealMacrosLoop (ps.map mkIngredient) tc tp tb tf bd =
      .ok (tc + (totMacros (ps.filter ingredientKnown)).calories,
           tp + (totMacros (ps.filter ingredientKnown)).protein,
           tb + (totMacros (ps.filter ingredientKnown)).carbs,
           tf + (totMacros (ps.filter ingredientKnown)).fat,
           bd ++ (ps.filter ingredientKnown).map ingEntry) := by
  induction ps with
  | nil =>
    intro tc tp tb tf bd
    simp [mealMacrosLoop, totMacros]
  | cons p ps ih =>
    obtain ⟨f, g⟩ := p
    intro tc tp tb tf bd
    cases hk : lookupStr nutrition_db (pyLowerStrip f) with
    | some n =>
      have hkb : ingredientKnown (f, g) = true := by simp [ingredientKnown, hk]
      have him : ingMacros (f, g) = ⟨n.calories * (g / 100), n.protein * (g / 100),
          n.carbs * (g / 100), n.fat * (g / 100)⟩ := by
        simp [ingMacros, hk]
      simp [mealMacrosLoop, mkIngredient, pyGet, lookupStr, asStr,
        get_nutrition_info_found hk, jget, pyTruthy, pyIndex, nutJson, asNum,
        except_bind_ok, ih, List.filter_cons, hkb, totMacros, ingEntry, him,
        add_assoc]
    | none =>
      have hkb : ingredientKnown (f, g) = false := by simp [ingredientKnown, hk]
      simp [mealMacrosLoop, mkIngredient, pyGet, lookupStr, asStr,
        get_nutrition_info_notfound hk, jget, pyTruthy, except_bind_ok, ih,
        List.filter_cons, hkb]

/-- Claim C10 (confirmed): `calculate_meal_macros` silently skips every
ingredient whose `lower().strip()`-normalised food name is not in
`nutrition_db`: the result is always a success whose breakdown lists exactly
the known ingredients and whose totals sum over exactly those; in particular a
list of only unknown foods yields an empty breakdown and totals of 0 calories,
0 protein, 0 carbs, 0 fat, with no error reported. -/
theorem c10_unknown_ingredients_skipped (ings : List (String × ℚ)) :
    calculate_meal_macros (ings.map mkIngredient) =
      .ok (mealMacrosFromKnown (ings.filter ingredientKnown)) ∧
    ((∀ p ∈ ings, ingredientKnown p = false) →
      calculate_meal_macros (ings.map mkIngredient) =
        .ok (Json.obj [("ingredients", Json.arr []),
          ("total", Json.obj [("calories", Json.num 0), ("protein_g", Json.num 0),
            ("carbs_g", Json.num 0), ("fat_g", Json.num 0)])])) := by
  have hmain : calculate_meal_macros (ings.map mkIngredient) =
      .ok (mealMacrosFromKnown (ings.filter ingredientKnown)) := by
    unfold calculate_meal_macros
    rw [mealMacrosLoop_spec]
    simp [mealMacrosFromKnown, except_bind_ok]
  refine ⟨hmain, fun hall => ?_⟩
  rw [hmain]
  have hfil : ings.filter ingredientKnown = [] := by
    rw [List.filter_eq_nil_iff]
    intro a ha
    simp [hall a ha]
  rw [hfil]
  have hz : pyRound 0 1 = 0 := by
    rw [pyRound_of_lt (f := 0) (by norm_num) (by norm_num)]
    norm_num
  simp [mealMacrosFromKnown, totMacros, hz]

/-- Witness for `c10_unknown_ingredients_skipped`: two foods absent from the
database. -/
theorem c10_witness :
    (∀ p ∈ [("dragonfruit", (100:ℚ)), ("unicorn", (50:ℚ))], ingredientKnown p = false) ∧
    calculate_meal_macros ([("dragonfruit", (100:ℚ)), ("unicorn", (50:ℚ))].map mkIngredient) =
      .ok (Json.obj [("ingredients", Json.arr []),
        ("total", Json.obj [("calories", Json.num 0), ("protein_g", Json.num 0),
          ("carbs_g", Json.num 0), ("fat_g", Json.num 0)])]) :=
  ⟨by decide, (c10_unknown_ingredients_skipped _).2 (by decide)⟩
